import Mathlib

/-!
Verification development for the S3 misconfiguration scan-and-remediate
engine (`s3-misconfig.py`): a shallow embedding of `lambda_handler`,
`scan_buckets` and `remediate_risks`, together with theorems about the
claims of the specification.

The storage service is modelled as a static world value: every service
call a bucket can receive is recorded as the response (or `ClientError`)
the service would give.  Functions return their value paired with the
trace of service calls they perform, so that frame conditions
("zero mutating calls") are provable.
-/

namespace S3Scan

/-- A botocore `ClientError`, reduced to its error code and message. -/
structure ClientError where
  code : String
  message : String
deriving DecidableEq, Repr

/-- Models Python `str(e)` on a `ClientError`. -/
def errStr (e : ClientError) : String := e.code ++ ": " ++ e.message

/-- The grantee of an ACL grant: its `Type` and `URI` fields. -/
structure Grantee where
  typ : String
  uri : String
deriving DecidableEq, Repr

/-- An ACL grant (only the `Grantee` field is inspected by the code). -/
structure Grant where
  grantee : Grantee
deriving DecidableEq, Repr

/-- The JSON value found under `Principal` in a policy statement:
the string `"*"`, some other string, or a JSON object (map). -/
inductive PrincipalV where
  | star
  | named (s : String)
  | mapP (kvs : List (String × String))
deriving DecidableEq, Repr

/-- A bucket-policy statement: its optional `Principal` and its
`Action` entry normalised to a list of action strings (the Python code
wraps a single string into a one-element list before inspecting it). -/
structure Stmt where
  principal : Option PrincipalV
  actions : List String
deriving DecidableEq, Repr

/-- A parsed bucket-policy document: `Version`, the `Statement` list,
and any other top-level fields of the JSON document. -/
structure Policy where
  version : String
  statements : List Stmt
  extra : List (String × String)
deriving DecidableEq, Repr

/-- One object of a bucket, as seen through `list_objects_v2` (its key)
and `get_object_acl` (its grants, or the error that call raises). -/
structure ObjectInfo where
  key : String
  aclGrants : Except ClientError (List Grant)
deriving Repr

/-- The storage service's state for one bucket: the response every
relevant API call would return. `pab` is `get_public_access_block`
(the flag map of the `PublicAccessBlockConfiguration`), `acl` is
`get_bucket_acl` (its `Grants`), `policy` is `get_bucket_policy`,
`encryption` is `get_bucket_encryption`; `objects` is the contents
listing used by the remediation safety check, and the `put*Err` fields
give the error (if any) each mutating call would raise. -/
structure BucketWorld where
  name : String
  pab : Except ClientError (List (String × Bool))
  acl : Except ClientError (List Grant)
  policy : Except ClientError Policy
  encryption : Except ClientError Unit
  objects : List ObjectInfo
  listObjectsErr : Option ClientError
  putAclErr : Option ClientError
  putPabErr : Option ClientError
  putPolicyErr : Option ClientError
  putEncErr : Option ClientError
deriving Repr

/-- The whole storage service: whether `list_buckets` fails, and the
buckets it holds, organised in listing pages (`s3-misconfig.py` issues a
single `list_buckets` call, which returns the first page only). -/
structure S3World where
  listErr : Option ClientError
  pages : List (List BucketWorld)
deriving Repr

/-- A finding produced by the scanner (`{'type': ..., 'details': ...}`). -/
structure Finding where
  type : String
  details : String
deriving DecidableEq, Repr

/-- One bucket's scan record (`{'name', 'risks', 'severity', 'skipped'}`). -/
structure BucketRecord where
  name : String
  risks : List Finding
  severity : String
  skipped : Bool
deriving DecidableEq, Repr

/-- A remediation outcome (`{'bucket', 'action', 'status'}` with an
optional `'reason'`). -/
structure FixOutcome where
  bucket : String
  action : String
  status : String
  reason : Option String
deriving DecidableEq, Repr

/-- The `summary` part of the scan result. -/
structure Summary where
  total_buckets : Nat
  high_risk : Nat
deriving DecidableEq, Repr

/-- The structured result built by `lambda_handler`: `fixes` is present
(`some`) exactly when the remediation branch ran. -/
structure ScanResult where
  summary : Summary
  buckets : List BucketRecord
  fixes : Option (List FixOutcome)
deriving DecidableEq, Repr

/-- The canonical invocation input after event-shape normalisation:
`config.exclude_buckets`, and the `remediate` / `dry_run` / `email`
fields with `none` meaning "absent from the event". -/
structure EventData where
  exclude_buckets : List String
  remediate : Option Bool
  dry_run : Option Bool
  email : Option String
deriving Repr

/-- One service call, as recorded in an execution trace. -/
inductive SCall where
  | listBuckets
  | getPAB (bucket : String)
  | getAcl (bucket : String)
  | getPolicy (bucket : String)
  | getEncryption (bucket : String)
  | listObjects (bucket : String)
  | getObjectAcl (bucket : String) (key : String)
  | putBucketAcl (bucket : String)
  | putPAB (bucket : String)
  | putPolicy (bucket : String) (newPolicy : Policy)
  | putEncryption (bucket : String)
  | sendEmail (recipient : String)
deriving DecidableEq, Repr

/-- The calls that mutate the storage service. -/
def isMutating : SCall → Bool
  | .putBucketAcl _ => true
  | .putPAB _ => true
  | .putPolicy _ _ => true
  | .putEncryption _ => true
  | _ => false

/-- Substring containment, modelling Python's `needle in hay`. -/
def strContains (hay needle : String) : Bool :=
  hay.data.tails.any (fun t => needle.data.isPrefixOf t)

/-- `severity_rank` from `scan_buckets`:
`{'none': 0, 'low': 1, 'medium': 2, 'high': 3}.get(severity, 0)`. -/
def severity_rank (s : String) : Nat :=
  if s = "none" then 0
  else if s = "low" then 1
  else if s = "medium" then 2
  else if s = "high" then 3
  else 0

/-- A grant to the `AllUsers` group:
`grantee.get('Type') == 'Group' and 'AllUsers' in grantee.get('URI', '')`. -/
def isPublicGrant (g : Grant) : Bool :=
  g.grantee.typ = "Group" && strContains g.grantee.uri "AllUsers"

/-- Check 1 of `scan_buckets`: flags of the public-access-block
configuration that are false; a finding of severity `high` when any
exist.  A `ClientError` from the lookup is caught and logged, producing
no finding. -/
def check1 (bw : BucketWorld) : Option (Finding × String) :=
  match bw.pab with
  | .error _ => none
  | .ok cfg =>
    let disabled := (cfg.filter (fun p => !p.2)).map (·.1)
    if disabled.isEmpty then none
    else some (⟨"PublicAccessBlockDisabled",
               "Disabled settings: " ++ String.intercalate ", " disabled⟩, "high")

/-- Check 2 of `scan_buckets`: public grants in the bucket ACL; a
finding of severity `high` when any exist. -/
def check2 (bw : BucketWorld) : Option (Finding × String) :=
  match bw.acl with
  | .error _ => none
  | .ok grants =>
    let publicGrants := grants.filter isPublicGrant
    if publicGrants.isEmpty then none
    else some (⟨"PublicACL",
               "Found " ++ toString publicGrants.length ++ " public grants"⟩, "high")

/-- The statement test of check 3:
`principal == '*' or any('s3:*' in action for action in actions)`. -/
def wildcardStmt (st : Stmt) : Bool :=
  st.principal = some .star || st.actions.any (fun a => strContains a "s3:*")

/-- Check 3 of `scan_buckets`: wildcard statements in the bucket policy
(severity `medium`), or a `NoPolicy` finding (severity `medium`) when the
lookup fails with `NoSuchBucketPolicy`; any other error is logged only. -/
def check3 (bw : BucketWorld) : Option (Finding × String) :=
  match bw.policy with
  | .ok pj =>
    let wildcardStatements := pj.statements.filter wildcardStmt
    if wildcardStatements.isEmpty then none
    else some (⟨"WildcardPolicy",
               "Found " ++ toString wildcardStatements.length ++
               " statement(s) with wildcard principal and/or wildcard action"⟩, "medium")
  | .error e =>
    if e.code = "NoSuchBucketPolicy" then
      some (⟨"NoPolicy", "No bucket policy configured"⟩, "medium")
    else none

/-- Check 4 of `scan_buckets`: a `NoEncryption` finding (severity
`medium`) when `get_bucket_encryption` fails with
`ServerSideEncryptionConfigurationNotFoundError`. -/
def check4 (bw : BucketWorld) : Option (Finding × String) :=
  match bw.encryption with
  | .ok _ => none
  | .error e =>
    if e.code = "ServerSideEncryptionConfigurationNotFoundError" then
      some (⟨"NoEncryption", "Default encryption not configured"⟩, "medium")
    else none

/-- Fold one check result into the accumulated `(bucket_risks, severity)`
pair, mirroring the append plus
`severity = S if severity_rank(S) > severity_rank(severity) else severity`
update performed after each check. -/
def applyCheck (acc : List Finding × String) (res : Option (Finding × String)) :
    List Finding × String :=
  match res with
  | none => acc
  | some (f, s) =>
    (acc.1 ++ [f], if severity_rank s > severity_rank acc.2 then s else acc.2)

/-- The per-bucket inspection of `scan_buckets`: the four checks run in
order, accumulating findings and the maximum severity. -/
def inspect_bucket (bw : BucketWorld) : BucketRecord :=
  let r := applyCheck (applyCheck (applyCheck (applyCheck ([], "none")
             (check1 bw)) (check2 bw)) (check3 bw)) (check4 bw)
  ⟨bw.name, r.1, r.2, false⟩

/-- The record `scan_buckets` emits for one listed bucket: the excluded
record for buckets in `config['exclude_buckets']`, otherwise the
inspection result. -/
def scanRecord (excludes : List String) (bw : BucketWorld) : BucketRecord :=
  if excludes.contains bw.name then ⟨bw.name, [], "none", true⟩
  else inspect_bucket bw

/-- The service calls the scan performs for one listed bucket. -/
def scanCalls (excludes : List String) (bw : BucketWorld) : List SCall :=
  if excludes.contains bw.name then []
  else [.getPAB bw.name, .getAcl bw.name, .getPolicy bw.name, .getEncryption bw.name]

/-- `scan_buckets`: a single (non-paginated) `list_buckets` call; on
`ClientError` the scan aborts and returns `[]`; otherwise each bucket of
that single response is scanned in listing order. -/
def scan_buckets (w : S3World) (excludes : List String) :
    List BucketRecord × List SCall :=
  match w.listErr with
  | some _ => ([], [.listBuckets])
  | none =>
    ((w.pages.headD []).map (scanRecord excludes),
     .listBuckets :: (w.pages.headD []).flatMap (scanCalls excludes))

/-- The error every call against a nonexistent bucket raises. -/
def noSuchBucket : ClientError :=
  ⟨"NoSuchBucket", "The specified bucket does not exist"⟩

/-- The service state of a bucket name the service does not hold:
every call fails with `NoSuchBucket`. -/
def missingBucketWorld (name : String) : BucketWorld :=
  { name := name
    pab := .error noSuchBucket
    acl := .error noSuchBucket
    policy := .error noSuchBucket
    encryption := .error noSuchBucket
    objects := []
    listObjectsErr := some noSuchBucket
    putAclErr := some noSuchBucket
    putPabErr := some noSuchBucket
    putPolicyErr := some noSuchBucket
    putEncErr := some noSuchBucket }

/-- Resolve a bucket name against the service. -/
def lookupBucketWorld (w : S3World) (name : String) : BucketWorld :=
  ((w.pages.flatten.find? (fun bw => bw.name = name)).getD (missingBucketWorld name))

/-- Whether an object, as sampled by the safety check, carries a grant to
the `AllUsers` group; an object whose `get_object_acl` call errors is
skipped (`except ClientError: continue`) and counts as not public. -/
def objHasPublic (o : ObjectInfo) : Bool :=
  match o.aclGrants with
  | .error _ => false
  | .ok gs => gs.any isPublicGrant

/-- The object loop of the PublicACL safety check: inspect each sampled
object's ACL in order, stopping at the first public grant; returns the
`has_public_objects` flag and the `get_object_acl` calls performed. -/
def scanObjects (b : String) : List ObjectInfo → Bool × List SCall
  | [] => (false, [])
  | o :: rest =>
    match o.aclGrants with
    | .error _ =>
      let r := scanObjects b rest
      (r.1, .getObjectAcl b o.key :: r.2)
    | .ok gs =>
      if gs.any isPublicGrant then (true, [.getObjectAcl b o.key])
      else
        let r := scanObjects b rest
        (r.1, .getObjectAcl b o.key :: r.2)

/-- Remediation of a `PublicACL` finding: list up to 100 objects, check
their ACLs; skip (manual review) when a public object exists, otherwise
put the bucket ACL to private; any `ClientError` from the listing or the
put yields a `failed` outcome. -/
def remediatePublicACL (bw : BucketWorld) : FixOutcome × List SCall :=
  match bw.listObjectsErr with
  | some e =>
    (⟨bw.name, "removed_public_acl", "failed", some (errStr e)⟩,
     [.listObjects bw.name])
  | none =>
    let scanned := scanObjects bw.name (bw.objects.take 100)
    let tBase := SCall.listObjects bw.name :: scanned.2
    if scanned.1 then
      (⟨bw.name, "removed_public_acl", "skipped",
        some "Objects with public ACLs detected - manual review required"⟩, tBase)
    else
      match bw.putAclErr with
      | some e =>
        (⟨bw.name, "removed_public_acl", "failed", some (errStr e)⟩,
         tBase ++ [.putBucketAcl bw.name])
      | none =>
        (⟨bw.name, "removed_public_acl", "success", none⟩,
         tBase ++ [.putBucketAcl bw.name])

/-- Remediation of a `PublicAccessBlockDisabled` finding: set all four
block flags true, unconditionally. -/
def remediatePAB (bw : BucketWorld) : FixOutcome × List SCall :=
  match bw.putPabErr with
  | some e =>
    (⟨bw.name, "enabled_public_access_block", "failed", some (errStr e)⟩,
     [.putPAB bw.name])
  | none =>
    (⟨bw.name, "enabled_public_access_block", "success", none⟩,
     [.putPAB bw.name])

/-- Remediation of a `WildcardPolicy` finding: re-fetch the policy, drop
the statements whose `Principal` is exactly `'*'`, and write back a
document rebuilt from `Version` and the filtered `Statement` list only,
provided the list got strictly shorter; otherwise skip. -/
def remediateWildcard (bw : BucketWorld) : FixOutcome × List SCall :=
  match bw.policy with
  | .error e =>
    (⟨bw.name, "removed_wildcard_policy", "failed", some (errStr e)⟩,
     [.getPolicy bw.name])
  | .ok pj =>
    let updated := pj.statements.filter (fun st => !(st.principal = some .star))
    if updated.length < pj.statements.length then
      let newPolicy : Policy := ⟨pj.version, updated, []⟩
      match bw.putPolicyErr with
      | some e =>
        (⟨bw.name, "removed_wildcard_policy", "failed", some (errStr e)⟩,
         [.getPolicy bw.name, .putPolicy bw.name newPolicy])
      | none =>
        (⟨bw.name, "removed_wildcard_policy", "success", none⟩,
         [.getPolicy bw.name, .putPolicy bw.name newPolicy])
    else
      (⟨bw.name, "removed_wildcard_policy", "skipped",
        some "no changes or complex policy"⟩, [.getPolicy bw.name])

/-- Remediation of a `NoEncryption` finding: enable AES256 default
encryption. -/
def remediateEncryption (bw : BucketWorld) : FixOutcome × List SCall :=
  match bw.putEncErr with
  | some e =>
    (⟨bw.name, "enabled_encryption", "failed", some (errStr e)⟩,
     [.putEncryption bw.name])
  | none =>
    (⟨bw.name, "enabled_encryption", "success", none⟩,
     [.putEncryption bw.name])

/-- Dispatch on `risk['type']`, mirroring the `if`/`elif` chain of
`remediate_risks`; finding types without a branch (such as `NoPolicy`)
produce no outcome. -/
def remediateRisk (bw : BucketWorld) (risk : Finding) : List FixOutcome × List SCall :=
  if risk.type = "PublicACL" then
    let r := remediatePublicACL bw; ([r.1], r.2)
  else if risk.type = "PublicAccessBlockDisabled" then
    let r := remediatePAB bw; ([r.1], r.2)
  else if risk.type = "WildcardPolicy" then
    let r := remediateWildcard bw; ([r.1], r.2)
  else if risk.type = "NoEncryption" then
    let r := remediateEncryption bw; ([r.1], r.2)
  else ([], [])

/-- The per-bucket remediation loop: findings are processed in the order
they appear in the bucket's `risks` list. -/
def remediateBucket (bw : BucketWorld) : List Finding → List FixOutcome × List SCall
  | [] => ([], [])
  | k :: ks =>
    let r := remediateRisk bw k
    let rest := remediateBucket bw ks
    (r.1 ++ rest.1, r.2 ++ rest.2)

/-- Eligibility filter of `remediate_risks`:
`r['severity'] in ['high', 'medium'] and not r.get('skipped')`. -/
def eligible (r : BucketRecord) : Bool :=
  (r.severity = "high" || r.severity = "medium") && !r.skipped

/-- `remediate_risks`: process each eligible bucket record in order,
appending outcome lists. -/
def remediate_risks (w : S3World) : List BucketRecord → List FixOutcome × List SCall
  | [] => ([], [])
  | r :: rs =>
    let rest := remediate_risks w rs
    if eligible r then
      let b := remediateBucket (lookupBucketWorld w r.name) r.risks
      (b.1 ++ rest.1, b.2 ++ rest.2)
    else rest

/-- `lambda_handler` on a normalised event: scan, build the summary,
remediate only when `remediate` is truthy and `dry_run` (default true)
is falsy, then send the email notification when an address is given. -/
def lambda_handler (w : S3World) (ed : EventData) : ScanResult × List SCall :=
  let remediateFlag := ed.remediate.getD false
  let dryRun := ed.dry_run.getD true
  let scanned := scan_buckets w ed.exclude_buckets
  let bucketRisks := scanned.1
  let summary : Summary :=
    ⟨bucketRisks.length, (bucketRisks.filter (fun b => b.severity = "high")).length⟩
  let fixed : Option (List FixOutcome) × List SCall :=
    if remediateFlag && !dryRun then
      let f := remediate_risks w bucketRisks
      (some f.1, f.2)
    else (none, [])
  let emailCalls : List SCall :=
    match ed.email with
    | some addr => [.sendEmail addr]
    | none => []
  (⟨summary, bucketRisks, fixed.1⟩, scanned.2 ++ fixed.2 ++ emailCalls)

/-! ### Helper lemmas -/

/-- The findings a single check contributes. -/
def optFinding : Option (Finding × String) → List Finding
  | none => []
  | some (f, _) => [f]

theorem severity_rank_le_three (s : String) : severity_rank s ≤ 3 := by
  unfold severity_rank
  repeat' split
  all_goals omega

theorem applyCheck_fst (acc : List Finding × String) (r : Option (Finding × String)) :
    (applyCheck acc r).1 = acc.1 ++ optFinding r := by
  cases r with
  | none => simp [applyCheck, optFinding]
  | some p => cases p; simp [applyCheck, optFinding]

theorem applyCheck_high (acc : List Finding × String) (r : Option (Finding × String))
    (h : acc.2 = "high") : (applyCheck acc r).2 = "high" := by
  cases r with
  | none => simpa [applyCheck] using h
  | some p =>
    obtain ⟨f, s⟩ := p
    simp only [applyCheck]
    have hle : severity_rank s ≤ 3 := severity_rank_le_three s
    rw [h]
    have h3 : severity_rank "high" = 3 := rfl
    have : ¬ severity_rank s > severity_rank "high" := by rw [h3]; omega
    simp [this]

theorem inspect_risks_eq (bw : BucketWorld) :
    (inspect_bucket bw).risks =
      optFinding (check1 bw) ++ optFinding (check2 bw) ++
      optFinding (check3 bw) ++ optFinding (check4 bw) := by
  show (applyCheck (applyCheck (applyCheck (applyCheck ([], "none")
        (check1 bw)) (check2 bw)) (check3 bw)) (check4 bw)).1 = _
  rw [applyCheck_fst, applyCheck_fst, applyCheck_fst, applyCheck_fst]
  simp

theorem inspect_name (bw : BucketWorld) : (inspect_bucket bw).name = bw.name := rfl

theorem scanRecord_name (excludes : List String) (bw : BucketWorld) :
    (scanRecord excludes bw).name = bw.name := by
  unfold scanRecord
  split <;> rfl

theorem scanObjects_fst (b : String) (objs : List ObjectInfo) :
    (scanObjects b objs).1 = objs.any objHasPublic := by
  induction objs with
  | nil => rfl
  | cons o rest ih =>
    cases h : o.aclGrants with
    | error e => simp [scanObjects, h, objHasPublic, ih]
    | ok gs =>
      by_cases hp : gs.any isPublicGrant = true
      · simp [scanObjects, h, objHasPublic, hp]
      · simp [scanObjects, h, objHasPublic, hp, ih]

theorem scanCalls_no_mutating (excludes : List String) (bw : BucketWorld) :
    (scanCalls excludes bw).filter isMutating = [] := by
  unfold scanCalls
  split <;> simp [isMutating]

theorem scan_trace_no_mutating (w : S3World) (excludes : List String) :
    (scan_buckets w excludes).2.filter isMutating = [] := by
  unfold scan_buckets
  cases w.listErr with
  | some e => simp [isMutating]
  | none =>
    have hflat : ∀ l : List BucketWorld,
        (l.flatMap (scanCalls excludes)).filter isMutating = [] := by
      intro l
      induction l with
      | nil => simp
      | cons bw rest ih =>
        simp [List.flatMap_cons, List.filter_append, scanCalls_no_mutating, ih]
    simp [List.filter_cons, isMutating, hflat]

/-! ### Concrete fixtures -/

/-- A bucket with no findings: all four block flags true, no grants,
an empty policy statement list, encryption configured. -/
def cleanBucket (nm : String) : BucketWorld :=
  { name := nm
    pab := .ok [("BlockPublicAcls", true), ("IgnorePublicAcls", true),
                ("BlockPublicPolicy", true), ("RestrictPublicBuckets", true)]
    acl := .ok []
    policy := .ok ⟨"2012-10-17", [], []⟩
    encryption := .ok ()
    objects := []
    listObjectsErr := none
    putAclErr := none
    putPabErr := none
    putPolicyErr := none
    putEncErr := none }

/-- The URI of the `AllUsers` well-known group. -/
def allUsersUri : String := "http://acs.amazonaws.com/groups/global/AllUsers"

/-- A bucket exhibiting both a disabled public-access-block flag and a
public ACL grant, with every remediation call succeeding. -/
def bwBoth : BucketWorld :=
  { cleanBucket "b1" with
    pab := .ok [("BlockPublicAcls", false), ("IgnorePublicAcls", true),
                ("BlockPublicPolicy", true), ("RestrictPublicBuckets", true)]
    acl := .ok [⟨⟨"Group", allUsersUri⟩⟩] }

/-- The bucket-listing world holding exactly `bwBoth`. -/
def wBoth : S3World := ⟨none, [[bwBoth]]⟩

end S3Scan

namespace S3Scan

/-! ### Claim C1 -/

/-- Claim C1 (code evidence): on a bucket carrying both a
PublicAccessBlockDisabled and a PublicACL finding, the scanner emits the
findings in the order [PublicAccessBlockDisabled, PublicACL], and
`remediate_risks` — which walks the findings list in order — therefore
produces the `enabled_public_access_block` outcome strictly BEFORE the
`removed_public_acl` outcome, contradicting the required priority order
stated both by the spec and by the code's own NOTE comment. -/
theorem c1_remediation_order_violated :
    ((scan_buckets wBoth []).1.map (fun r => r.risks.map (·.type))) =
      [["PublicAccessBlockDisabled", "PublicACL"]] ∧
    ((remediate_risks wBoth (scan_buckets wBoth []).1).1.map (·.action)) =
      ["enabled_public_access_block", "removed_public_acl"] := by
  constructor
  · rfl
  · rfl

/-! ### Claim C2 -/

/-- Claim C2: with `remediate` true and `dry_run` true (or absent, since
it defaults to true), the handler's result has no `fixes` entry and the
execution performs zero mutating storage calls; conversely a `fixes`
entry can only be present when `remediate` is exactly true and `dry_run`
is explicitly false. -/
theorem c2_dry_run_invariant (w : S3World) (ed : EventData) :
    (ed.remediate.getD false = true → ed.dry_run.getD true = true →
      (lambda_handler w ed).1.fixes = none ∧
      (lambda_handler w ed).2.filter isMutating = []) ∧
    ((lambda_handler w ed).1.fixes.isSome →
      ed.remediate = some true ∧ ed.dry_run = some false) := by
  constructor
  · intro _ hdry
    have hscan := scan_trace_no_mutating w ed.exclude_buckets
    cases hmail : ed.email with
    | none =>
      simp [lambda_handler, hdry, hmail, List.filter_append, hscan]
    | some addr =>
      simp [lambda_handler, hdry, hmail, List.filter_append, hscan, isMutating]
  · intro hfix
    by_cases hc : (ed.remediate.getD false && !(ed.dry_run.getD true)) = true
    · have hr : ed.remediate = some true := by
        cases hrr : ed.remediate with
        | none => rw [hrr] at hc; simp at hc
        | some b =>
          rw [hrr] at hc
          simp only [Option.getD_some, Bool.and_eq_true] at hc
          rw [hc.1]
      have hd : ed.dry_run = some false := by
        cases hdd : ed.dry_run with
        | none => rw [hdd] at hc; simp at hc
        | some b =>
          rw [hdd] at hc
          simp only [Option.getD_some, Bool.and_eq_true, Bool.not_eq_true'] at hc
          rw [hc.2]
      exact ⟨hr, hd⟩
    · exfalso
      simp only [lambda_handler, hc] at hfix
      simp at hfix

/-- Witness for C2 at a concrete world and event. -/
theorem c2_dry_run_invariant_witness :
    (lambda_handler wBoth ⟨[], some true, some true, none⟩).1.fixes = none ∧
    (lambda_handler wBoth ⟨[], some true, some true, none⟩).2.filter isMutating = [] :=
  (c2_dry_run_invariant wBoth ⟨[], some true, some true, none⟩).1 rfl rfl

/-! ### Claim C3 -/

/-- A world whose `list_buckets` call fails although buckets exist. -/
def wFatal : S3World := ⟨some ⟨"AccessDenied", "Access Denied"⟩, [[bwBoth]]⟩

/-- A world with no buckets and a succeeding listing call. -/
def wEmptyAccount : S3World := ⟨none, [[]]⟩

/-- An event with every optional field absent. -/
def edPlain : EventData := ⟨[], none, none, none⟩

/-- Claim C3 counterexample: when the bucket-listing call fails, the
handler's returned result is byte-for-byte the result of a successful
scan of an account with zero buckets — it carries no embedded error
payload or error flag of any kind (the error is only printed to the
log). -/
theorem c3_no_error_payload_counterexample :
    lambda_handler wFatal edPlain = lambda_handler wEmptyAccount edPlain ∧
    (lambda_handler wFatal edPlain).1 = ⟨⟨0, 0⟩, [], none⟩ := by
  constructor
  · rfl
  · rfl

/-- Claim C3 (amended): when the bucket-listing call fails, the scan
aborts with no partial result and the handler still returns normally, a
structured result with an empty bucket list and zero counts; but no
error payload is embedded in the result. -/
theorem c3_fatal_listing_empty_result (w : S3World) (ed : EventData)
    (e : ClientError) (h : w.listErr = some e) :
    (lambda_handler w ed).1.buckets = [] ∧
    (lambda_handler w ed).1.summary = ⟨0, 0⟩ ∧
    ((lambda_handler w ed).1.fixes = none ∨ (lambda_handler w ed).1.fixes = some []) ∧
    (lambda_handler w ed).2.filter isMutating = [] := by
  simp only [lambda_handler, scan_buckets, h]
  refine ⟨by simp, by simp, ?_, ?_⟩
  · by_cases hc : (ed.remediate.getD false && !(ed.dry_run.getD true)) = true
    · right; simp [hc, remediate_risks]
    · left; simp [hc]
  · by_cases hc : (ed.remediate.getD false && !(ed.dry_run.getD true)) = true <;>
      cases hmail : ed.email <;>
      simp [hc, hmail, remediate_risks, List.filter_append, isMutating]

/-- Witness for the amended C3 at the concrete fatal world. -/
theorem c3_fatal_listing_empty_result_witness :
    (lambda_handler wFatal edPlain).1.buckets = [] ∧
    (lambda_handler wFatal edPlain).1.summary = ⟨0, 0⟩ ∧
    ((lambda_handler wFatal edPlain).1.fixes = none ∨
      (lambda_handler wFatal edPlain).1.fixes = some []) ∧
    (lambda_handler wFatal edPlain).2.filter isMutating = [] :=
  c3_fatal_listing_empty_result wFatal edPlain ⟨"AccessDenied", "Access Denied"⟩ rfl

/-! ### Claim C4 -/

/-- Spec-side definition, following the spec's words: the scan "must
paginate", so every bucket from every page of the listing appears, in
listing order. -/
def specAllBucketNames (w : S3World) : List String :=
  w.pages.flatten.map (·.name)

/-- A listing whose buckets span two pages. -/
def wTwoPages : S3World := ⟨none, [[cleanBucket "p1"], [cleanBucket "p2"]]⟩

/-- Claim C4 counterexample: with a two-page listing, the scan emits only
the buckets of the first page — `scan_buckets` issues a single
non-paginated `list_buckets` call — so the bucket of page 2 is missing
from the output, against the spec-side all-pages definition. -/
theorem c4_pagination_counterexample :
    ((scan_buckets wTwoPages []).1.map (·.name)) = ["p1"] ∧
    specAllBucketNames wTwoPages = ["p1", "p2"] ∧
    ((scan_buckets wTwoPages []).1.map (·.name)) ≠ specAllBucketNames wTwoPages := by
  refine ⟨rfl, rfl, ?_⟩
  decide

/-- Claim C4 (amended): the scan output consists of exactly the buckets
of the single (first) page returned by the one `list_buckets` call, in
listing order; buckets on later pages never appear. -/
theorem c4_single_page_only (w : S3World) (excludes : List String)
    (h : w.listErr = none) :
    ((scan_buckets w excludes).1.map (·.name)) = (w.pages.headD []).map (·.name) := by
  simp only [scan_buckets, h]
  simp [List.map_map, Function.comp, scanRecord_name]

/-- Witness for the amended C4 at the two-page world. -/
theorem c4_single_page_only_witness :
    ((scan_buckets wTwoPages []).1.map (·.name)) =
      (wTwoPages.pages.headD []).map (·.name) :=
  c4_single_page_only wTwoPages [] rfl

/-! ### Per-check characterisation lemmas -/

theorem mem_optFinding (r : Option (Finding × String)) (f : Finding) :
    f ∈ optFinding r ↔ ∃ s, r = some (f, s) := by
  cases r with
  | none => simp [optFinding]
  | some p =>
    obtain ⟨a, b⟩ := p
    simp [optFinding, eq_comm]

theorem mem_inspect_risks (bw : BucketWorld) (f : Finding) :
    f ∈ (inspect_bucket bw).risks ↔
      f ∈ optFinding (check1 bw) ∨ f ∈ optFinding (check2 bw) ∨
      f ∈ optFinding (check3 bw) ∨ f ∈ optFinding (check4 bw) := by
  rw [inspect_risks_eq]
  simp [or_assoc]

theorem check1_some_type (bw : BucketWorld) (f : Finding) (s : String)
    (h : check1 bw = some (f, s)) : f.type = "PublicAccessBlockDisabled" := by
  unfold check1 at h
  cases hp : bw.pab with
  | error e => simp [hp] at h
  | ok cfg =>
    simp only [hp] at h
    split at h
    · exact absurd h (by simp)
    · simp only [Option.some.injEq, Prod.mk.injEq] at h
      rw [← h.1]

theorem check2_some_type (bw : BucketWorld) (f : Finding) (s : String)
    (h : check2 bw = some (f, s)) : f.type = "PublicACL" := by
  unfold check2 at h
  cases hp : bw.acl with
  | error e => simp [hp] at h
  | ok grants =>
    simp only [hp] at h
    split at h
    · exact absurd h (by simp)
    · simp only [Option.some.injEq, Prod.mk.injEq] at h
      rw [← h.1]

theorem check3_some_type (bw : BucketWorld) (f : Finding) (s : String)
    (h : check3 bw = some (f, s)) :
    f.type = "WildcardPolicy" ∨ f.type = "NoPolicy" := by
  unfold check3 at h
  cases hp : bw.policy with
  | ok pj =>
    simp only [hp] at h
    split at h
    · exact absurd h (by simp)
    · simp only [Option.some.injEq, Prod.mk.injEq] at h
      left; rw [← h.1]
  | error e =>
    simp only [hp] at h
    split at h
    · simp only [Option.some.injEq, Prod.mk.injEq] at h
      right; rw [← h.1]
    · exact absurd h (by simp)

theorem check4_some_type (bw : BucketWorld) (f : Finding) (s : String)
    (h : check4 bw = some (f, s)) : f.type = "NoEncryption" := by
  unfold check4 at h
  cases hp : bw.encryption with
  | ok u => simp [hp] at h
  | error e =>
    simp only [hp] at h
    split at h
    · simp only [Option.some.injEq, Prod.mk.injEq] at h
      rw [← h.1]
    · exact absurd h (by simp)

theorem check3_wildcard_iff (bw : BucketWorld) (pj : Policy)
    (hok : bw.policy = .ok pj) :
    (∃ f ∈ optFinding (check3 bw), f.type = "WildcardPolicy") ↔
      ∃ st ∈ pj.statements, wildcardStmt st = true := by
  unfold check3
  simp only [hok]
  cases hw : pj.statements.filter wildcardStmt with
  | nil =>
    simp only [hw, List.isEmpty_nil, if_pos rfl, optFinding]
    constructor
    · rintro ⟨f, hf, -⟩; simp at hf
    · rintro ⟨st, hst, hwst⟩
      have hmem : st ∈ pj.statements.filter wildcardStmt :=
        List.mem_filter.mpr ⟨hst, hwst⟩
      rw [hw] at hmem
      simp at hmem
  | cons a l =>
    simp only [hw, List.isEmpty_cons, Bool.false_eq_true, if_neg, optFinding]
    constructor
    · intro _
      have hmem : a ∈ pj.statements.filter wildcardStmt := by
        rw [hw]; exact List.mem_cons_self a l
      obtain ⟨hmem2, hpred⟩ := List.mem_filter.mp hmem
      exact ⟨a, hmem2, hpred⟩
    · intro _
      exact ⟨_, List.mem_singleton_self _, rfl⟩

theorem check3_nopolicy (bw : BucketWorld) (e : ClientError)
    (he : bw.policy = .error e) (hc : e.code = "NoSuchBucketPolicy") :
    check3 bw = some (⟨"NoPolicy", "No bucket policy configured"⟩, "medium") := by
  simp [check3, he, hc]

/-! ### Claim C5 -/

/-- A bucket whose public-access-block configuration is absent entirely
(the lookup fails with `NoSuchPublicAccessBlockConfiguration`), and
which is otherwise clean. -/
def bwNoPab : BucketWorld :=
  { cleanBucket "b5" with
    pab := .error ⟨"NoSuchPublicAccessBlockConfiguration",
                   "The public access block configuration was not found"⟩ }

/-- Claim C5 counterexample: a bucket whose public-access-block
configuration is absent entirely gets NO `PublicAccessBlockDisabled`
finding and severity `none` — the `ClientError` of the lookup is caught
and only logged — contradicting the claim that absence yields the
finding and severity `high`. -/
theorem c5_absent_pab_counterexample :
    (inspect_bucket bwNoPab).risks = [] ∧
    (inspect_bucket bwNoPab).severity = "none" := ⟨rfl, rfl⟩

/-- Claim C5 (amended): for every bucket whose public-access-block
lookup succeeds and returns a configuration with at least one flag
false, the findings contain `PublicAccessBlockDisabled` and the bucket
severity is `high`, regardless of the other checks; an absent
configuration (failing lookup) yields no such finding. -/
theorem c5_pab_disabled_high (bw : BucketWorld) (cfg : List (String × Bool))
    (hok : bw.pab = .ok cfg) (hflag : cfg.any (fun p => !p.2) = true) :
    (∃ f ∈ (inspect_bucket bw).risks, f.type = "PublicAccessBlockDisabled") ∧
    (inspect_bucket bw).severity = "high" := by
  have hne : (cfg.filter (fun p => !p.2)).map (·.1) ≠ [] := by
    obtain ⟨p, hp, hpv⟩ := List.any_eq_true.mp hflag
    have hmem : p ∈ cfg.filter (fun p => !p.2) := List.mem_filter.mpr ⟨hp, hpv⟩
    intro hcon
    rw [List.map_eq_nil_iff] at hcon
    rw [hcon] at hmem
    simp at hmem
  have hc1 : ∃ d, check1 bw = some (⟨"PublicAccessBlockDisabled", d⟩, "high") := by
    unfold check1
    simp only [hok]
    cases hd : (cfg.filter (fun p => !p.2)).map (·.1) with
    | nil => exact absurd hd hne
    | cons a l =>
      exact ⟨"Disabled settings: " ++ String.intercalate ", " (a :: l), by simp⟩
  obtain ⟨d, hc1⟩ := hc1
  constructor
  · refine ⟨⟨"PublicAccessBlockDisabled", d⟩, ?_, rfl⟩
    rw [mem_inspect_risks]
    left
    rw [mem_optFinding]
    exact ⟨"high", hc1⟩
  · show (applyCheck (applyCheck (applyCheck (applyCheck ([], "none")
        (check1 bw)) (check2 bw)) (check3 bw)) (check4 bw)).2 = "high"
    apply applyCheck_high
    apply applyCheck_high
    apply applyCheck_high
    rw [hc1]
    have h1 : severity_rank "high" = 3 := rfl
    have h2 : severity_rank "none" = 0 := rfl
    simp [applyCheck, h1, h2]

/-- Witness for the amended C5 at a concrete bucket with one flag
false. -/
theorem c5_pab_disabled_high_witness :
    (∃ f ∈ (inspect_bucket bwBoth).risks, f.type = "PublicAccessBlockDisabled") ∧
    (inspect_bucket bwBoth).severity = "high" :=
  c5_pab_disabled_high bwBoth
    [("BlockPublicAcls", false), ("IgnorePublicAcls", true),
     ("BlockPublicPolicy", true), ("RestrictPublicBuckets", true)] rfl rfl

/-! ### Claim C6 -/

/-- A policy whose single statement has a named principal and the
wildcard action `sns:*` of a service other than s3. -/
def pjSns : Policy :=
  ⟨"2012-10-17", [⟨some (.named "arn:aws:iam::123456789012:root"), ["sns:*"]⟩], []⟩

/-- An otherwise clean bucket carrying `pjSns`. -/
def bwSns : BucketWorld := { cleanBucket "b6" with policy := .ok pjSns }

/-- Claim C6 counterexample: a policy statement with the wildcard
service action `sns:*` (a `service:*` action of a service other than
s3) and a named principal produces NO `WildcardPolicy` finding: the
code's test is literally the substring test `'s3:*' in action`, not
"any service". -/
theorem c6_any_service_counterexample :
    (pjSns.statements.map (·.actions)) = [["sns:*"]] ∧
    strContains "sns:*" ":*" = true ∧
    (inspect_bucket bwSns).risks = [] := ⟨rfl, rfl, rfl⟩

/-- Claim C6 (amended): with a present policy, a `WildcardPolicy`
finding is emitted iff some statement has `Principal` exactly `*` or
some action string contains the substring `s3:*` (the s3 service only);
when the lookup fails with `NoSuchBucketPolicy`, a `NoPolicy` finding is
emitted instead and no `WildcardPolicy` finding appears. -/
theorem c6_wildcard_iff_s3_star (bw : BucketWorld) :
    (∀ pj : Policy, bw.policy = .ok pj →
      ((∃ f ∈ (inspect_bucket bw).risks, f.type = "WildcardPolicy") ↔
        ∃ st ∈ pj.statements, st.principal = some PrincipalV.star ∨
          ∃ a ∈ st.actions, strContains a "s3:*" = true)) ∧
    (∀ e : ClientError, bw.policy = .error e → e.code = "NoSuchBucketPolicy" →
      (∃ f ∈ (inspect_bucket bw).risks, f.type = "NoPolicy") ∧
      ¬ ∃ f ∈ (inspect_bucket bw).risks, f.type = "WildcardPolicy") := by
  have hmemW : ∀ f : Finding, f ∈ (inspect_bucket bw).risks →
      f.type = "WildcardPolicy" → f ∈ optFinding (check3 bw) := by
    intro f hf ht
    rcases (mem_inspect_risks bw f).mp hf with h1 | h2 | h3 | h4
    · obtain ⟨s, hs⟩ := (mem_optFinding _ _).mp h1
      rw [check1_some_type bw f s hs] at ht
      simp at ht
    · obtain ⟨s, hs⟩ := (mem_optFinding _ _).mp h2
      rw [check2_some_type bw f s hs] at ht
      simp at ht
    · exact h3
    · obtain ⟨s, hs⟩ := (mem_optFinding _ _).mp h4
      rw [check4_some_type bw f s hs] at ht
      simp at ht
  constructor
  · intro pj hok
    constructor
    · rintro ⟨f, hf, ht⟩
      have h3 := hmemW f hf ht
      obtain ⟨st, hst, hwst⟩ :=
        (check3_wildcard_iff bw pj hok).mp ⟨f, h3, ht⟩
      refine ⟨st, hst, ?_⟩
      unfold wildcardStmt at hwst
      rcases (Bool.or_eq_true _ _).mp hwst with hp | ha
      · left; exact of_decide_eq_true hp
      · right
        obtain ⟨a, hma, hca⟩ := List.any_eq_true.mp ha
        exact ⟨a, hma, hca⟩
    · rintro ⟨st, hst, hcond⟩
      have hwst : wildcardStmt st = true := by
        unfold wildcardStmt
        rcases hcond with hp | ⟨a, hma, hca⟩
        · exact (Bool.or_eq_true _ _).mpr (Or.inl (decide_eq_true hp))
        · exact (Bool.or_eq_true _ _).mpr
            (Or.inr (List.any_eq_true.mpr ⟨a, hma, hca⟩))
      obtain ⟨f, hf3, ht⟩ :=
        (check3_wildcard_iff bw pj hok).mpr ⟨st, hst, hwst⟩
      exact ⟨f, (mem_inspect_risks bw f).mpr (Or.inr (Or.inr (Or.inl hf3))), ht⟩
  · intro e he hc
    have h3 := check3_nopolicy bw e he hc
    constructor
    · refine ⟨⟨"NoPolicy", "No bucket policy configured"⟩, ?_, rfl⟩
      rw [mem_inspect_risks]
      right; right; left
      rw [mem_optFinding]
      exact ⟨"medium", h3⟩
    · rintro ⟨f, hf, ht⟩
      have hmem := hmemW f hf ht
      obtain ⟨s, hs⟩ := (mem_optFinding _ _).mp hmem
      rw [h3] at hs
      simp only [Option.some.injEq, Prod.mk.injEq] at hs
      rw [← hs.1] at ht
      simp at ht

/-- Witness for the amended C6: the `sns:*`-only bucket satisfies the
present-policy branch (both sides of the iff false). -/
theorem c6_wildcard_iff_s3_star_witness :
    ((∃ f ∈ (inspect_bucket bwSns).risks, f.type = "WildcardPolicy") ↔
      ∃ st ∈ pjSns.statements, st.principal = some PrincipalV.star ∨
        ∃ a ∈ st.actions, strContains a "s3:*" = true) :=
  (c6_wildcard_iff_s3_star bwSns).1 pjSns rfl

/-! ### Remediation helper lemmas -/

theorem putAcl_not_in_scanObjects (n b : String) (objs : List ObjectInfo) :
    SCall.putBucketAcl n ∉ (scanObjects b objs).2 := by
  induction objs with
  | nil => simp [scanObjects]
  | cons o rest ih =>
    cases h : o.aclGrants with
    | error e =>
      simp only [scanObjects, h, List.mem_cons]
      rintro (hc | hc)
      · exact absurd hc (by simp)
      · exact ih hc
    | ok gs =>
      by_cases hp : gs.any isPublicGrant = true
      · simp [scanObjects, h, hp]
      · simp only [scanObjects, h, hp, if_neg, List.mem_cons, Bool.false_eq_true,
          if_false]
        rintro (hc | hc)
        · exact absurd hc (by simp)
        · exact ih hc

theorem remediatePublicACL_skip (bw : BucketWorld)
    (hl : bw.listObjectsErr = none)
    (hp : (bw.objects.take 100).any objHasPublic = true) :
    (remediatePublicACL bw).1 =
      ⟨bw.name, "removed_public_acl", "skipped",
       some "Objects with public ACLs detected - manual review required"⟩ ∧
    (remediatePublicACL bw).2 =
      SCall.listObjects bw.name :: (scanObjects bw.name (bw.objects.take 100)).2 := by
  have hs : (scanObjects bw.name (bw.objects.take 100)).1 = true := by
    rw [scanObjects_fst]; exact hp
  simp [remediatePublicACL, hl, hs]

theorem remediatePublicACL_success (bw : BucketWorld)
    (hl : bw.listObjectsErr = none)
    (hnp : (bw.objects.take 100).any objHasPublic = false)
    (hput : bw.putAclErr = none) :
    (remediatePublicACL bw).1.status = "success" ∧
    SCall.putBucketAcl bw.name ∈ (remediatePublicACL bw).2 := by
  have hs : (scanObjects bw.name (bw.objects.take 100)).1 = false := by
    rw [scanObjects_fst]; exact hnp
  simp [remediatePublicACL, hl, hs, hput]

/-! ### Claim C7 -/

/-- Claim C7: in a PublicACL remediation attempt whose object listing
succeeds, if any of the up to 100 sampled objects carries an `AllUsers`
grant the outcome is `skipped` with the manual-review reason and no
bucket-ACL mutation is performed; when no sampled object carries a
public grant (and the put succeeds) the bucket ACL is set to private
with status `success`; and a bucket-ACL put happens only when no
sampled object carries a public grant. -/
theorem c7_public_acl_safety (bw : BucketWorld) :
    (bw.listObjectsErr = none →
      ((bw.objects.take 100).any objHasPublic = true →
        (remediatePublicACL bw).1.status = "skipped" ∧
        (remediatePublicACL bw).1.reason =
          some "Objects with public ACLs detected - manual review required" ∧
        SCall.putBucketAcl bw.name ∉ (remediatePublicACL bw).2) ∧
      ((bw.objects.take 100).any objHasPublic = false → bw.putAclErr = none →
        (remediatePublicACL bw).1.status = "success" ∧
        SCall.putBucketAcl bw.name ∈ (remediatePublicACL bw).2)) ∧
    (SCall.putBucketAcl bw.name ∈ (remediatePublicACL bw).2 →
      (bw.objects.take 100).any objHasPublic = false) := by
  constructor
  · intro hl
    constructor
    · intro hp
      obtain ⟨h1, h2⟩ := remediatePublicACL_skip bw hl hp
      refine ⟨by rw [h1], by rw [h1], ?_⟩
      rw [h2]
      simp only [List.mem_cons, not_or]
      exact ⟨by simp, putAcl_not_in_scanObjects bw.name bw.name _⟩
    · exact remediatePublicACL_success bw hl
  · intro hmem
    cases hl : bw.listObjectsErr with
    | some e =>
      rw [show remediatePublicACL bw =
          (⟨bw.name, "removed_public_acl", "failed", some (errStr e)⟩,
           [.listObjects bw.name]) from by simp [remediatePublicACL, hl]] at hmem
      simp at hmem
    | none =>
      by_cases hp : (bw.objects.take 100).any objHasPublic = true
      · obtain ⟨-, h2⟩ := remediatePublicACL_skip bw hl hp
        rw [h2] at hmem
        simp only [List.mem_cons] at hmem
        rcases hmem with hc | hc
        · exact absurd hc (by simp)
        · exact absurd hc (putAcl_not_in_scanObjects bw.name bw.name _)
      · exact Bool.not_eq_true _ ▸ hp

/-- A bucket with a PublicACL finding whose first sampled object carries
an `AllUsers` grant. -/
def bwPublicObj : BucketWorld :=
  { cleanBucket "b7" with
    acl := .ok [⟨⟨"Group", allUsersUri⟩⟩]
    objects := [⟨"key1", .ok [⟨⟨"Group", allUsersUri⟩⟩]⟩] }

/-- Witness for C7 at a bucket holding a public object: the outcome is
`skipped` with the manual-review reason and no ACL mutation occurs. -/
theorem c7_public_acl_safety_witness :
    (remediatePublicACL bwPublicObj).1.status = "skipped" ∧
    (remediatePublicACL bwPublicObj).1.reason =
      some "Objects with public ACLs detected - manual review required" ∧
    SCall.putBucketAcl bwPublicObj.name ∉ (remediatePublicACL bwPublicObj).2 :=
  ((c7_public_acl_safety bwPublicObj).1 rfl).1 rfl

/-! ### Claim C8 -/

/-- A policy mixing a wildcard-principal statement with a named-principal
statement, and carrying an extra top-level field `Id`. -/
def pjC8 : Policy :=
  ⟨"2012-10-17",
   [⟨some PrincipalV.star, ["s3:GetObject"]⟩,
    ⟨some (.named "arn:aws:iam::123456789012:root"), ["s3:PutObject"]⟩],
   [("Id", "ExamplePolicyId")]⟩

/-- An otherwise clean bucket carrying `pjC8`. -/
def bwC8 : BucketWorld := { cleanBucket "b8" with policy := .ok pjC8 }

/-- Claim C8 counterexample: remediating `pjC8` writes back a policy
rebuilt from `Version` and the filtered `Statement` list only — the
original top-level field `Id` is dropped, so the rest of the policy
document is NOT left unchanged as the claim states. -/
theorem c8_extra_field_dropped_counterexample :
    pjC8.extra = [("Id", "ExamplePolicyId")] ∧
    (remediateWildcard bwC8).1.status = "success" ∧
    (remediateWildcard bwC8).2 =
      [.getPolicy "b8",
       .putPolicy "b8"
         ⟨"2012-10-17",
          [⟨some (.named "arn:aws:iam::123456789012:root"), ["s3:PutObject"]⟩],
          []⟩] ∧
    (⟨"2012-10-17",
      [⟨some (.named "arn:aws:iam::123456789012:root"), ["s3:PutObject"]⟩],
      ([] : List (String × String))⟩ : Policy).extra ≠ pjC8.extra := by
  refine ⟨rfl, rfl, rfl, ?_⟩
  decide

/-- Claim C8 (amended): WildcardPolicy remediation re-fetches the
policy, removes exactly the statements whose `Principal` is exactly
`*`, and — when the statement list got strictly shorter — writes back a
document holding only the original `Version` and the filtered
`Statement` list (any other top-level field is dropped), with status
`success` when the put succeeds and `failed` capturing the error when
it does not; when no statement was removed it records `skipped` with
reason "no changes or complex policy" and performs no mutation. -/
theorem c8_wildcard_remediation (bw : BucketWorld) (pj : Policy)
    (hok : bw.policy = .ok pj) :
    ((pj.statements.filter (fun st => !(st.principal = some PrincipalV.star))).length <
        pj.statements.length →
      (remediateWildcard bw).2 =
        [.getPolicy bw.name,
         .putPolicy bw.name
           ⟨pj.version,
            pj.statements.filter (fun st => !(st.principal = some PrincipalV.star)),
            []⟩] ∧
      (bw.putPolicyErr = none → (remediateWildcard bw).1.status = "success") ∧
      (∀ e : ClientError, bw.putPolicyErr = some e →
        (remediateWildcard bw).1.status = "failed" ∧
        (remediateWildcard bw).1.reason = some (errStr e))) ∧
    (¬ (pj.statements.filter (fun st => !(st.principal = some PrincipalV.star))).length <
        pj.statements.length →
      remediateWildcard bw =
        (⟨bw.name, "removed_wildcard_policy", "skipped",
          some "no changes or complex policy"⟩,
         [.getPolicy bw.name])) := by
  constructor
  · intro hshort
    refine ⟨?_, ?_, ?_⟩
    · cases hpp : bw.putPolicyErr <;>
        simp [remediateWildcard, hok, hshort, hpp]
    · intro hpp
      simp [remediateWildcard, hok, hshort, hpp]
    · intro e hpp
      simp [remediateWildcard, hok, hshort, hpp]
  · intro hlong
    simp [remediateWildcard, hok, hlong]

/-- Witness for the amended C8 at the concrete mixed policy. -/
theorem c8_wildcard_remediation_witness :
    (remediateWildcard bwC8).2 =
      [.getPolicy bwC8.name,
       .putPolicy bwC8.name
         ⟨pjC8.version,
          pjC8.statements.filter (fun st => !(st.principal = some PrincipalV.star)),
          []⟩] :=
  (((c8_wildcard_remediation bwC8 pjC8 rfl).1 (by decide)).1)

/-! ### Claim C9 -/

theorem remediatePublicACL_put_failed (bw : BucketWorld) (e : ClientError)
    (hl : bw.listObjectsErr = none)
    (hnp : (bw.objects.take 100).any objHasPublic = false)
    (hput : bw.putAclErr = some e) :
    (remediatePublicACL bw).1 =
      ⟨bw.name, "removed_public_acl", "failed", some (errStr e)⟩ := by
  have hs : (scanObjects bw.name (bw.objects.take 100)).1 = false := by
    rw [scanObjects_fst]; exact hnp
  simp [remediatePublicACL, hl, hs, hput]

theorem remediateWildcard_put_failed (bw : BucketWorld) (pj : Policy)
    (e : ClientError) (hok : bw.policy = .ok pj)
    (hshort : (pj.statements.filter
        (fun st => !(st.principal = some PrincipalV.star))).length <
      pj.statements.length)
    (hput : bw.putPolicyErr = some e) :
    (remediateWildcard bw).1 =
      ⟨bw.name, "removed_wildcard_policy", "failed", some (errStr e)⟩ := by
  simp [remediateWildcard, hok, hshort, hput]

/-- Claim C9: the remediation batch decomposes over the record list —
processing one bucket's outcomes never suppresses the outcomes of the
buckets and findings after it — and every service failure of a single
remediation action, on each of its fallible calls (the puts of the
public-access block, the bucket ACL, the policy and the encryption
configuration, as well as the object listing and the policy re-fetch),
is captured as a `failed` outcome whose reason holds the error, rather
than escaping the batch (in this embedding every remediation function
is total, so no exception can propagate). -/
theorem c9_failure_isolation (w : S3World) :
    (∀ recs1 recs2 : List BucketRecord,
      (remediate_risks w (recs1 ++ recs2)).1 =
        (remediate_risks w recs1).1 ++ (remediate_risks w recs2).1) ∧
    (∀ bw : BucketWorld, ∀ k : Finding, ∀ ks : List Finding,
      (remediateBucket bw (k :: ks)).1 =
        (remediateRisk bw k).1 ++ (remediateBucket bw ks).1) ∧
    (∀ bw : BucketWorld, ∀ e : ClientError,
      (bw.putPabErr = some e →
        remediatePAB bw =
          (⟨bw.name, "enabled_public_access_block", "failed", some (errStr e)⟩,
           [.putPAB bw.name])) ∧
      (bw.putEncErr = some e →
        remediateEncryption bw =
          (⟨bw.name, "enabled_encryption", "failed", some (errStr e)⟩,
           [.putEncryption bw.name])) ∧
      (bw.listObjectsErr = some e →
        remediatePublicACL bw =
          (⟨bw.name, "removed_public_acl", "failed", some (errStr e)⟩,
           [.listObjects bw.name])) ∧
      (bw.policy = .error e →
        remediateWildcard bw =
          (⟨bw.name, "removed_wildcard_policy", "failed", some (errStr e)⟩,
           [.getPolicy bw.name])) ∧
      (bw.listObjectsErr = none →
        (bw.objects.take 100).any objHasPublic = false →
        bw.putAclErr = some e →
        (remediatePublicACL bw).1 =
          ⟨bw.name, "removed_public_acl", "failed", some (errStr e)⟩) ∧
      (∀ pj : Policy, bw.policy = .ok pj →
        (pj.statements.filter
            (fun st => !(st.principal = some PrincipalV.star))).length <
          pj.statements.length →
        bw.putPolicyErr = some e →
        (remediateWildcard bw).1 =
          ⟨bw.name, "removed_wildcard_policy", "failed", some (errStr e)⟩)) := by
  refine ⟨?_, ?_, ?_⟩
  · intro recs1 recs2
    induction recs1 with
    | nil => simp [remediate_risks]
    | cons r rs ih =>
      by_cases he : eligible r = true <;>
        simp [remediate_risks, he, ih, List.append_assoc]
  · intro bw k ks
    rfl
  · intro bw e
    refine ⟨?_, ?_, ?_, ?_, ?_, ?_⟩
    · intro h; simp [remediatePAB, h]
    · intro h; simp [remediateEncryption, h]
    · intro h; simp [remediatePublicACL, h]
    · intro h; simp [remediateWildcard, h]
    · intro hl hnp hput
      exact remediatePublicACL_put_failed bw e hl hnp hput
    · intro pj hok hshort hput
      exact remediateWildcard_put_failed bw pj e hok hshort hput

/-- A bucket whose public-access-block put fails. -/
def bwFail : BucketWorld :=
  { cleanBucket "f1" with putPabErr := some ⟨"AccessDenied", "denied"⟩ }

/-- A bucket with no public sampled objects whose bucket-ACL put
fails. -/
def bwAclFail : BucketWorld :=
  { cleanBucket "f2" with putAclErr := some ⟨"AccessDenied", "denied"⟩ }

/-- A one-statement wildcard-principal policy. -/
def pjStarOnly : Policy :=
  ⟨"2012-10-17", [⟨some PrincipalV.star, ["s3:GetObject"]⟩], []⟩

/-- A bucket carrying a removable wildcard statement whose policy put
fails. -/
def bwPolicyFail : BucketWorld :=
  { cleanBucket "f3" with
    policy := .ok pjStarOnly
    putPolicyErr := some ⟨"AccessDenied", "denied"⟩ }

/-- Witness for C9: the batch decomposition at concrete record lists,
and concrete failing puts — of the public-access block, of the bucket
ACL, and of the policy — each captured as a `failed` outcome. -/
theorem c9_failure_isolation_witness :
    (remediate_risks wBoth ([⟨"x", [], "none", false⟩] ++ [])).1 =
      (remediate_risks wBoth [⟨"x", [], "none", false⟩]).1 ++
      (remediate_risks wBoth []).1 ∧
    remediatePAB bwFail =
      (⟨"f1", "enabled_public_access_block", "failed",
        some "AccessDenied: denied"⟩, [.putPAB "f1"]) ∧
    (remediatePublicACL bwAclFail).1 =
      ⟨"f2", "removed_public_acl", "failed", some "AccessDenied: denied"⟩ ∧
    (remediateWildcard bwPolicyFail).1 =
      ⟨"f3", "removed_wildcard_policy", "failed", some "AccessDenied: denied"⟩ :=
  ⟨(c9_failure_isolation wBoth).1 [⟨"x", [], "none", false⟩] [],
   ((c9_failure_isolation wBoth).2.2 bwFail ⟨"AccessDenied", "denied"⟩).1 rfl,
   ((c9_failure_isolation wBoth).2.2 bwAclFail
      ⟨"AccessDenied", "denied"⟩).2.2.2.2.1 rfl rfl rfl,
   ((c9_failure_isolation wBoth).2.2 bwPolicyFail
      ⟨"AccessDenied", "denied"⟩).2.2.2.2.2 pjStarOnly rfl (by decide) rfl⟩

/-! ### Claim C10 -/

/-- Claim C10: an object whose per-object ACL lookup errors is treated
as not publicly granted — it never makes the safety check fire — so
when every readable sampled object is non-public (even if some sampled
objects' ACLs were unverifiable), the bucket ACL is still set to
private with status `success`. -/
theorem c10_unreadable_acl_not_public (bw : BucketWorld) :
    (∀ o : ObjectInfo, ∀ e : ClientError,
      o.aclGrants = .error e → objHasPublic o = false) ∧
    (bw.listObjectsErr = none →
      (∀ o ∈ bw.objects.take 100, ∀ gs, o.aclGrants = Except.ok gs →
        gs.any isPublicGrant = false) →
      bw.putAclErr = none →
      (remediatePublicACL bw).1.status = "success" ∧
      SCall.putBucketAcl bw.name ∈ (remediatePublicACL bw).2) := by
  constructor
  · intro o e h
    simp [objHasPublic, h]
  · intro hl hobjs hput
    have hnp : (bw.objects.take 100).any objHasPublic = false := by
      rw [List.any_eq_false]
      intro o ho
      cases hg : o.aclGrants with
      | error e => simp [objHasPublic, hg]
      | ok gs =>
        simp only [objHasPublic, hg]
        exact Bool.not_eq_true _ ▸ (hobjs o ho gs hg)
    exact remediatePublicACL_success bw hl hnp hput

/-- A bucket sampling one object with an unreadable ACL and one clean
object. -/
def bwUnreadable : BucketWorld :=
  { cleanBucket "b10" with
    objects := [⟨"k1", .error ⟨"AccessDenied", "denied"⟩⟩, ⟨"k2", .ok []⟩] }

/-- Witness for C10: with one unreadable-ACL object and one clean
object, remediation still sets the bucket ACL to private. -/
theorem c10_unreadable_acl_not_public_witness :
    (remediatePublicACL bwUnreadable).1.status = "success" ∧
    SCall.putBucketAcl bwUnreadable.name ∈ (remediatePublicACL bwUnreadable).2 :=
  (c10_unreadable_acl_not_public bwUnreadable).2 rfl
    (by
      intro o ho gs hgs
      have ho2 : o ∈ [(⟨"k1", .error ⟨"AccessDenied", "denied"⟩⟩ : ObjectInfo),
                      ⟨"k2", .ok []⟩] := ho
      rcases List.mem_cons.mp ho2 with h | h
      · rw [h] at hgs; exact absurd hgs (by simp)
      · rcases List.mem_cons.mp h with h2 | h2
        · rw [h2] at hgs
          simp only [Except.ok.injEq] at hgs
          rw [← hgs]
          rfl
        · exact absurd h2 (by simp))
    rfl

end S3Scan
